import Mathlib

/-!
Verification development for the ReassureMe symptom-intake core:
the conversation phase engine, the rule-based urgency classifier,
the AI-backed content generators with deterministic fallbacks, and
the severity-derivation helper of the chat UI.

Strings are modelled as Lean `String`s; the JavaScript operations
`toLowerCase`, `includes`, `trim` and template interpolation are
embedded as structural functions over the character list so that all
definitions evaluate by kernel reduction.
-/

/-- Character-level lower casing, modelling `String.prototype.toLowerCase`
for the ASCII texts this application manipulates. -/
def lowerStr (s : String) : String :=
  String.mk (s.data.map Char.toLower)

/-- `begMatch sub l` is true when `sub` is an initial segment of `l`. -/
def begMatch : List Char → List Char → Bool
  | [], _ => true
  | _ :: _, [] => false
  | a :: as, b :: bs => a == b && begMatch as bs

/-- `listHasSub sub l` is true when `sub` occurs contiguously inside `l`. -/
def listHasSub (sub : List Char) : List Char → Bool
  | [] => sub.isEmpty
  | c :: t => begMatch sub (c :: t) || listHasSub sub t

/-- Model of `hay.includes(needle)` from JavaScript. -/
def strIncludes (hay needle : String) : Bool :=
  listHasSub needle.data hay.data

/-- Whitespace characters removed by `String.prototype.trim`. -/
def isWsChar (c : Char) : Bool :=
  c == ' ' || c == '\t' || c == '\n' || c == '\r' || c == '\x0b' || c == '\x0c'

/-- Model of `raw.trim()` from JavaScript. -/
def jsTrim (s : String) : String :=
  String.mk (((s.data.dropWhile isWsChar).reverse.dropWhile isWsChar).reverse)

/-- JavaScript `o || ''` on an optional string: `none` and the empty
string both collapse to the empty string. -/
def orEmpty (o : Option String) : String :=
  o.getD ""

/-- JavaScript truthiness of an optional string: false for absent and
for the empty string. -/
def strTruthy (o : Option String) : Bool :=
  orEmpty o != ""

/-- The `conversationPhase` enumeration of the deterministic variant. -/
inductive Phase where
  | initial
  | symptom
  | location
  | duration
  | context
  | summary
deriving DecidableEq

/-- Numeric position of a phase along the linear machine. -/
def phaseOrd : Phase → Nat
  | .initial => 0
  | .symptom => 1
  | .location => 2
  | .duration => 3
  | .context => 4
  | .summary => 5

/-- The string literal the source uses for each phase. -/
def phaseToString : Phase → String
  | .initial => "initial"
  | .symptom => "symptom"
  | .location => "location"
  | .duration => "duration"
  | .context => "context"
  | .summary => "summary"

/-- Inverse of `phaseToString`, used when decoding AI responses. -/
def phaseOfString (s : String) : Option Phase :=
  if s = "initial" then some .initial
  else if s = "symptom" then some .symptom
  else if s = "location" then some .location
  else if s = "duration" then some .duration
  else if s = "context" then some .context
  else if s = "summary" then some .summary
  else none

/-- The `ConversationState` record of src/services/conversationService.ts:
optional free-text fields plus the phase and the location gate. -/
structure ConversationState where
  symptom : Option String := none
  bodyLocation : Option String := none
  duration : Option String := none
  contextualInfo : Option String := none
  conversationPhase : Phase
  requiresLocation : Bool
deriving DecidableEq

/-- Result shape `{ message, newState, phase }` returned by the
question generators (`phase` is a plain string in the source). -/
structure NQResult where
  message : String
  newState : ConversationState
  phase : String
deriving DecidableEq

/-- The four urgency tiers. -/
inductive Urgency where
  | low
  | medium
  | high
  | urgent
deriving DecidableEq

/-- Result shape `{ recommendation, urgencyLevel, advice }`. -/
structure RecommendationResult where
  recommendation : String
  urgencyLevel : Urgency
  advice : String
deriving DecidableEq

namespace ConversationService

/-- `symptomsThatNeedLocation` keyword vocabulary. -/
def symptomsThatNeedLocation : List String :=
  ["pain", "ache", "soreness", "swelling", "rash", "bruise", "cut", "burn",
   "numbness", "tingling", "weakness", "stiffness", "itching", "bump", "lump"]

/-- The hint attached to the `default` key of `symptomHints`. -/
def defaultHint : String :=
  "e.g. when it started, severity, what makes it better or worse, any patterns you've noticed"

/-- The `symptomHints` record, in property insertion order. -/
def symptomHints : List (String × String) :=
  [("cough", "e.g. wet or dry, colour of phlegm, anything that triggers it, time of day it's worse"),
   ("headache", "e.g. throbbing or constant, location (front, back, sides), severity on a scale of 1-10, what makes it better or worse"),
   ("fever", "e.g. temperature if measured, time it started, accompanying symptoms like chills or sweating"),
   ("nausea", "e.g. accompanied by vomiting, relation to meals, severity, triggers"),
   ("fatigue", "e.g. how long you've felt tired, impact on daily activities, sleep quality"),
   ("dizziness", "e.g. spinning sensation or lightheadedness, when it occurs, triggers"),
   ("sore throat", "e.g. difficulty swallowing, pain level, accompanying symptoms"),
   ("default", defaultHint)]

/-- `getSymptomHint`: first hint whose key occurs in the lower-cased
symptom, otherwise the default hint. -/
def getSymptomHint (symptom : String) : String :=
  let lowerSymptom := lowerStr symptom
  match symptomHints.find? (fun kv => strIncludes lowerSymptom kv.1) with
  | some kv => kv.2
  | none => defaultHint

/-- `needsBodyLocation`: does the lower-cased symptom contain any
location-indicating keyword? -/
def needsBodyLocation (symptom : String) : Bool :=
  let lowerSymptom := lowerStr symptom
  symptomsThatNeedLocation.any (fun s => strIncludes lowerSymptom s)

/-- The deterministic phase engine `generateNextQuestion` of
src/services/conversationService.ts. -/
def generateNextQuestion (state : ConversationState) (userMessage : String) :
    NQResult :=
  match state.conversationPhase with
  | .initial =>
      { message := "What symptom are you experiencing?"
        newState := { state with conversationPhase := .symptom }
        phase := "symptom" }
  | .symptom =>
      let requiresLocation := needsBodyLocation userMessage
      if requiresLocation then
        { message := "Where exactly are you experiencing this?"
          newState := { state with
            symptom := some userMessage
            requiresLocation := requiresLocation
            conversationPhase := .location }
          phase := "location" }
      else
        { message := "How long have you been experiencing this symptom?"
          newState := { state with
            symptom := some userMessage
            requiresLocation := requiresLocation
            conversationPhase := .duration }
          phase := "duration" }
  | .location =>
      { message := "How long have you been experiencing this symptom?"
        newState := { state with
          bodyLocation := some userMessage
          conversationPhase := .duration }
        phase := "duration" }
  | .duration =>
      let hint := getSymptomHint (orEmpty state.symptom)
      { message := "Please tell me more about this symptom. " ++ hint ++
          "\n\nAlso, is there any other information that might be relevant? For example, recent lifestyle changes, sleep patterns, stress levels, or activities that might be connected?"
        newState := { state with
          duration := some userMessage
          conversationPhase := .context }
        phase := "context" }
  | .context =>
      { message := "Thank you for sharing that information. Is there anything else you'd like to add before I create a summary?"
        newState := { state with
          contextualInfo := some userMessage
          conversationPhase := .summary }
        phase := "summary" }
  | .summary =>
      { message := "I'm processing your information..."
        newState := state
        phase := "summary" }

/-- The deterministic urgency classifier `generateRecommendation` of
src/services/conversationService.ts: an ordered decision list over
lower-cased substring tests. -/
def generateRecommendation (state : ConversationState) : RecommendationResult :=
  let symptom := lowerStr (orEmpty state.symptom)
  let duration := lowerStr (orEmpty state.duration)
  let context := lowerStr (orEmpty state.contextualInfo)
  if strIncludes symptom "chest pain" ||
     strIncludes symptom "difficulty breathing" ||
     strIncludes symptom "severe bleeding" ||
     strIncludes symptom "loss of consciousness" ||
     strIncludes symptom "seizure" ||
     (strIncludes symptom "headache" &&
       (strIncludes context "sudden" || strIncludes context "worst ever")) then
    { recommendation := "Call 999 immediately"
      urgencyLevel := .urgent
      advice := "This requires immediate emergency attention. Please call 999 or go to A&E right away." }
  else if strIncludes symptom "high fever" ||
          strIncludes symptom "persistent vomiting" ||
          strIncludes symptom "severe pain" ||
          (strIncludes symptom "pain" && strIncludes context "severe") ||
          strIncludes duration "week" ||
          strIncludes duration "month" then
    { recommendation := "Contact your GP or call 111"
      urgencyLevel := .high
      advice := "You should book a GP appointment within the next 24-48 hours, or call 111 for further guidance if symptoms worsen." }
  else if strIncludes symptom "persistent" ||
          (strIncludes symptom "cough" && strIncludes duration "week") ||
          strIncludes symptom "recurring" then
    { recommendation := "Book a GP appointment"
      urgencyLevel := .medium
      advice := "Consider booking a GP appointment within the next week to discuss these symptoms further." }
  else
    let selfCareAdvice :=
      if strIncludes symptom "headache" then
        "Stay hydrated, rest in a quiet, dark room, and consider over-the-counter pain relief such as paracetamol or ibuprofen."
      else if strIncludes symptom "cough" then
        "Stay hydrated, rest, use honey and lemon for soothing, and consider over-the-counter cough remedies if needed."
      else if strIncludes symptom "sore throat" then
        "Gargle with warm salt water, stay hydrated, and consider throat lozenges or over-the-counter pain relief."
      else if strIncludes symptom "pain" &&
              (strIncludes symptom "leg" || strIncludes symptom "muscle") then
        "Rest the affected area, apply ice if swollen, and consider over-the-counter anti-inflammatory medication such as ibuprofen."
      else if strIncludes symptom "fatigue" then
        "Ensure adequate sleep, maintain a balanced diet, stay hydrated, and consider gentle exercise."
      else
        "Monitor your symptoms, stay hydrated, and rest. If symptoms persist or worsen, consider contacting your GP."
    { recommendation := "Self-care and monitoring"
      urgencyLevel := .low
      advice := selfCareAdvice ++ " Continue to monitor your symptoms and log any changes in this app." }

end ConversationService

/-- Exact representation of a JSON number literal: sign, integer part,
fraction digits and exponent (a shallow model of the float produced by
`JSON.parse`; the claims never compare numeric payloads). -/
structure JsonNum where
  neg : Bool
  intPart : Nat
  frac : List Nat
  expNeg : Bool
  expVal : Nat
deriving DecidableEq

/-- JSON values as produced by `JSON.parse`; object members are kept in
parse order (property access resolves to the last duplicate, as in JS). -/
inductive Json where
  | null
  | bool (b : Bool)
  | num (n : JsonNum)
  | str (s : String)
  | arr (elems : List Json)
  | obj (members : List (String × Json))

/-- A parse error, identified by the input position at which the strict
grammar was violated (standing in for the `SyntaxError` object). -/
structure ParseErr where
  pos : Nat
deriving DecidableEq

/-- JSON insignificant whitespace. -/
def isJsonWs (c : Char) : Bool :=
  c == ' ' || c == '\t' || c == '\n' || c == '\r'

/-- Skip JSON whitespace, tracking the position. -/
def skipWs : List Char → Nat → List Char × Nat
  | [], pos => ([], pos)
  | c :: t, pos => if isJsonWs c then skipWs t (pos + 1) else (c :: t, pos)

/-- Value of a hexadecimal digit. -/
def hexVal (c : Char) : Option Nat :=
  let n := c.toNat
  if 48 ≤ n && n ≤ 57 then some (n - 48)
  else if 65 ≤ n && n ≤ 70 then some (n - 55)
  else if 97 ≤ n && n ≤ 102 then some (n - 87)
  else none

/-- Scan the body of a JSON string (the opening quote already consumed),
handling the escape sequences of the JSON grammar. -/
def parseStringGo : List Char → Nat → List Char → Except ParseErr (String × List Char × Nat)
  | [], pos, _ => .error ⟨pos⟩
  | c :: t, pos, acc =>
    if c == '"' then .ok (String.mk acc.reverse, t, pos + 1)
    else if c == '\\' then
      match t with
      | [] => .error ⟨pos + 1⟩
      | e :: t2 =>
        if e == '"' then parseStringGo t2 (pos + 2) ('"' :: acc)
        else if e == '\\' then parseStringGo t2 (pos + 2) ('\\' :: acc)
        else if e == '/' then parseStringGo t2 (pos + 2) ('/' :: acc)
        else if e == 'b' then parseStringGo t2 (pos + 2) ('\x08' :: acc)
        else if e == 'f' then parseStringGo t2 (pos + 2) ('\x0c' :: acc)
        else if e == 'n' then parseStringGo t2 (pos + 2) ('\n' :: acc)
        else if e == 'r' then parseStringGo t2 (pos + 2) ('\r' :: acc)
        else if e == 't' then parseStringGo t2 (pos + 2) ('\t' :: acc)
        else if e == 'u' then
          match t2 with
          | h1 :: h2 :: h3 :: h4 :: t3 =>
            match hexVal h1, hexVal h2, hexVal h3, hexVal h4 with
            | some a, some b, some c2, some d =>
                parseStringGo t3 (pos + 6)
                  (Char.ofNat (((a * 16 + b) * 16 + c2) * 16 + d) :: acc)
            | _, _, _, _ => .error ⟨pos + 2⟩
          | _ => .error ⟨pos + 2⟩
        else .error ⟨pos + 1⟩
    else if c.toNat < 32 then .error ⟨pos⟩
    else parseStringGo t (pos + 1) (c :: acc)

/-- Take a maximal run of decimal digits. -/
def takeDigits : List Char → Nat → List Nat × List Char × Nat
  | [], pos => ([], [], pos)
  | c :: t, pos =>
    if 48 ≤ c.toNat && c.toNat ≤ 57 then
      let (ds, rest, p) := takeDigits t (pos + 1)
      ((c.toNat - 48) :: ds, rest, p)
    else ([], c :: t, pos)

/-- Assemble a digit list into a natural number. -/
def digitsToNat (ds : List Nat) : Nat :=
  ds.foldl (fun acc d => acc * 10 + d) 0

/-- Parse a JSON number after an optional leading minus sign. -/
def parseNumberCore (neg : Bool) (cs : List Char) (pos : Nat) :
    Except ParseErr (JsonNum × List Char × Nat) :=
  match takeDigits cs pos with
  | ([], _, _) => .error ⟨pos⟩
  | (d :: ds, rest, p) =>
    if d == 0 && !ds.isEmpty then .error ⟨pos + 1⟩
    else
      let ip := digitsToNat (d :: ds)
      let fracStep : Except ParseErr (List Nat × List Char × Nat) :=
        match rest with
        | '.' :: r2 =>
          match takeDigits r2 (p + 1) with
          | ([], _, _) => .error ⟨p + 1⟩
          | (fd :: fds, r3, p3) => .ok (fd :: fds, r3, p3)
        | _ => .ok ([], rest, p)
      match fracStep with
      | .error e => .error e
      | .ok (fds, rest2, p2) =>
        match rest2 with
        | 'e' :: r4 =>
          match r4 with
          | '+' :: r5 =>
            match takeDigits r5 (p2 + 2) with
            | ([], _, _) => .error ⟨p2 + 2⟩
            | (ed :: eds, r6, p6) => .ok (⟨neg, ip, fds, false, digitsToNat (ed :: eds)⟩, r6, p6)
          | '-' :: r5 =>
            match takeDigits r5 (p2 + 2) with
            | ([], _, _) => .error ⟨p2 + 2⟩
            | (ed :: eds, r6, p6) => .ok (⟨neg, ip, fds, true, digitsToNat (ed :: eds)⟩, r6, p6)
          | _ =>
            match takeDigits r4 (p2 + 1) with
            | ([], _, _) => .error ⟨p2 + 1⟩
            | (ed :: eds, r6, p6) => .ok (⟨neg, ip, fds, false, digitsToNat (ed :: eds)⟩, r6, p6)
        | 'E' :: r4 =>
          match r4 with
          | '+' :: r5 =>
            match takeDigits r5 (p2 + 2) with
            | ([], _, _) => .error ⟨p2 + 2⟩
            | (ed :: eds, r6, p6) => .ok (⟨neg, ip, fds, false, digitsToNat (ed :: eds)⟩, r6, p6)
          | '-' :: r5 =>
            match takeDigits r5 (p2 + 2) with
            | ([], _, _) => .error ⟨p2 + 2⟩
            | (ed :: eds, r6, p6) => .ok (⟨neg, ip, fds, true, digitsToNat (ed :: eds)⟩, r6, p6)
          | _ =>
            match takeDigits r4 (p2 + 1) with
            | ([], _, _) => .error ⟨p2 + 1⟩
            | (ed :: eds, r6, p6) => .ok (⟨neg, ip, fds, false, digitsToNat (ed :: eds)⟩, r6, p6)
        | _ => .ok (⟨neg, ip, fds, false, 0⟩, rest2, p2)

/-- Abbreviation for a parsing continuation over the remaining input. -/
def ParseCont : Type :=
  List Char → Nat → Except ParseErr (Json × List Char × Nat)

/-- Parse one or more `"key": value` members separated by commas,
delegating nested values to the continuation `pv`. -/
def parseMembersGo (pv : ParseCont) : Nat → List Char → Nat → List (String × Json) →
    Except ParseErr (Json × List Char × Nat)
  | 0, _, pos, _ => .error ⟨pos⟩
  | fuel + 1, cs, pos, acc =>
    let sp := skipWs cs pos
    match sp.1 with
    | '"' :: t =>
      match parseStringGo t (sp.2 + 1) [] with
      | .error e => .error e
      | .ok (key, rest, p) =>
        let sp2 := skipWs rest p
        match sp2.1 with
        | ':' :: r2 =>
          match pv r2 (sp2.2 + 1) with
          | .error e => .error e
          | .ok (v, r3, p3) =>
            let sp3 := skipWs r3 p3
            match sp3.1 with
            | ',' :: r4 => parseMembersGo pv fuel r4 (sp3.2 + 1) ((key, v) :: acc)
            | '\x7d' :: r4 => .ok (.obj ((key, v) :: acc).reverse, r4, sp3.2 + 1)
            | _ => .error ⟨sp3.2⟩
        | _ => .error ⟨sp2.2⟩
    | _ => .error ⟨sp.2⟩

/-- Parse one or more array elements separated by commas, delegating
element values to the continuation `pv`. -/
def parseElementsGo (pv : ParseCont) : Nat → List Char → Nat → List Json →
    Except ParseErr (Json × List Char × Nat)
  | 0, _, pos, _ => .error ⟨pos⟩
  | fuel + 1, cs, pos, acc =>
    match pv cs pos with
    | .error e => .error e
    | .ok (v, r, p) =>
      let sp := skipWs r p
      match sp.1 with
      | ',' :: r2 => parseElementsGo pv fuel r2 (sp.2 + 1) (v :: acc)
      | ']' :: r2 => .ok (.arr (v :: acc).reverse, r2, sp.2 + 1)
      | _ => .error ⟨sp.2⟩

/-- Recursive-descent parser for a JSON value (fuel-indexed so the
definition is structurally recursive and kernel-evaluable). -/
def parseValue : Nat → List Char → Nat → Except ParseErr (Json × List Char × Nat)
  | 0, _, pos => .error ⟨pos⟩
  | fuel + 1, cs, pos =>
    let sp := skipWs cs pos
    match sp.1 with
    | [] => .error ⟨sp.2⟩
    | c :: t =>
      if c == '"' then
        match parseStringGo t (sp.2 + 1) [] with
        | .ok (s, rest, p) => .ok (.str s, rest, p)
        | .error e => .error e
      else if c == '\x7b' then
        let sp2 := skipWs t (sp.2 + 1)
        match sp2.1 with
        | '\x7d' :: r => .ok (.obj [], r, sp2.2 + 1)
        | other => parseMembersGo (fun cs2 p2 => parseValue fuel cs2 p2) fuel other sp2.2 []
      else if c == '[' then
        let sp2 := skipWs t (sp.2 + 1)
        match sp2.1 with
        | ']' :: r => .ok (.arr [], r, sp2.2 + 1)
        | other => parseElementsGo (fun cs2 p2 => parseValue fuel cs2 p2) fuel other sp2.2 []
      else if c == 't' then
        match t with
        | 'r' :: 'u' :: 'e' :: r => .ok (.bool true, r, sp.2 + 4)
        | _ => .error ⟨sp.2⟩
      else if c == 'f' then
        match t with
        | 'a' :: 'l' :: 's' :: 'e' :: r => .ok (.bool false, r, sp.2 + 5)
        | _ => .error ⟨sp.2⟩
      else if c == 'n' then
        match t with
        | 'u' :: 'l' :: 'l' :: r => .ok (.null, r, sp.2 + 4)
        | _ => .error ⟨sp.2⟩
      else if c == '-' then
        match parseNumberCore true t (sp.2 + 1) with
        | .ok (n, rest, p) => .ok (.num n, rest, p)
        | .error e => .error e
      else if 48 ≤ c.toNat && c.toNat ≤ 57 then
        match parseNumberCore false (c :: t) sp.2 with
        | .ok (n, rest, p) => .ok (.num n, rest, p)
        | .error e => .error e
      else .error ⟨sp.2⟩

/-- Model of `JSON.parse`: a strict parse of the whole input, rejecting
trailing non-whitespace. -/
def parseJson (s : String) : Except ParseErr Json :=
  let cs := s.data
  match parseValue (cs.length * 2 + 4) cs 0 with
  | .error e => .error e
  | .ok (v, rest, pos) =>
    let sp := skipWs rest pos
    match sp.1 with
    | [] => .ok v
    | _ => .error ⟨sp.2⟩

/-- Index of the first occurrence of a character. -/
def firstIdxOf (c : Char) : List Char → Option Nat
  | [] => none
  | a :: t => if a == c then some 0 else (firstIdxOf c t).map (· + 1)

/-- Index of the last occurrence of a character. -/
def lastIdxOf (c : Char) (l : List Char) : Option Nat :=
  (firstIdxOf c l.reverse).map (fun k => l.length - 1 - k)

/-- The substring selected by the greedy regex `/\x7b[\s\S]*\x7d/`:
from the first opening brace to the last closing brace, provided the
first opening brace precedes the last closing brace. -/
def jsonCandidate (s : String) : Option String :=
  let cs := s.data
  match firstIdxOf '\x7b' cs, lastIdxOf '\x7d' cs with
  | some i, some j =>
      if i < j then some (String.mk ((cs.drop i).take (j - i + 1))) else none
  | _, _ => none

/-- `extractJson` from the AI conversation service: strict parse of the
trimmed raw text; on failure, retry on the brace-delimited candidate
substring; if no candidate exists, rethrow the original error. -/
def extractJson (rawResponse : String) : Except ParseErr Json :=
  let trimmed := jsTrim rawResponse
  match parseJson trimmed with
  | .ok v => .ok v
  | .error e =>
    match jsonCandidate trimmed with
    | some sub => parseJson sub
    | none => .error e

/-- JavaScript truthiness of a JSON value. -/
def jsTruthy : Json → Bool
  | .null => false
  | .bool b => b
  | .num n => !(n.intPart == 0 && n.frac.all (fun d => d == 0))
  | .str s => !(s == "")
  | .arr _ => true
  | .obj _ => true

/-- Property access `obj[k]` on a parsed JSON value (`none` stands for
`undefined`); for duplicate keys `JSON.parse` keeps the last one. -/
def Json.getField : Json → String → Option Json
  | .obj members, k => (members.reverse.find? (fun kv => kv.1 == k)).map (fun kv => kv.2)
  | _, _ => none

/-- JavaScript template interpolation of a possibly-undefined string:
an absent field renders as the text `undefined`. -/
def jsInterp (o : Option String) : String :=
  o.getD "undefined"

/-- Urgency string decoding for the cast AI response. -/
def urgencyOfString (s : String) : Option Urgency :=
  if s = "low" then some .low
  else if s = "medium" then some .medium
  else if s = "high" then some .high
  else if s = "urgent" then some .urgent
  else none

/-- The optional `context` argument `{ summary?, additionalInfo? }` of
`generateRecommendation`. -/
structure RecCtx where
  summary : Option String := none
  additionalInfo : Option String := none
deriving DecidableEq

/-- Recommendation object of the AI conversation service; `advice` is
optional because the success-path validation does not check it. -/
structure AiRecommendation where
  recommendation : String
  urgencyLevel : Urgency
  advice : Option String
deriving DecidableEq

namespace AiConversationService

/-- The deterministic `fallbackNextQuestion` of the AI conversation
service (its body coincides with the phase engine of
conversationService.ts). -/
def fallbackNextQuestion (state : ConversationState) (userMessage : String) :
    NQResult :=
  match state.conversationPhase with
  | .initial =>
      { message := "What symptom are you experiencing?"
        newState := { state with conversationPhase := .symptom }
        phase := "symptom" }
  | .symptom =>
      let requiresLocation := ConversationService.needsBodyLocation userMessage
      if requiresLocation then
        { message := "Where exactly are you experiencing this?"
          newState := { state with
            symptom := some userMessage
            requiresLocation := requiresLocation
            conversationPhase := .location }
          phase := "location" }
      else
        { message := "How long have you been experiencing this symptom?"
          newState := { state with
            symptom := some userMessage
            requiresLocation := requiresLocation
            conversationPhase := .duration }
          phase := "duration" }
  | .location =>
      { message := "How long have you been experiencing this symptom?"
        newState := { state with
          bodyLocation := some userMessage
          conversationPhase := .duration }
        phase := "duration" }
  | .duration =>
      let hint := ConversationService.getSymptomHint (orEmpty state.symptom)
      { message := "Please tell me more about this symptom. " ++ hint ++
          "\n\nAlso, is there any other information that might be relevant? For example, recent lifestyle changes, sleep patterns, stress levels, or activities that might be connected?"
        newState := { state with
          duration := some userMessage
          conversationPhase := .context }
        phase := "context" }
  | .context =>
      { message := "Thank you for sharing that information. Is there anything else you'd like to add before I create a summary?"
        newState := { state with
          contextualInfo := some userMessage
          conversationPhase := .summary }
        phase := "summary" }
  | .summary =>
      { message := "I'm processing your information..."
        newState := state
        phase := "summary" }

/-- The deterministic `fallbackSummary`: labelled sections concatenated
in fixed order, with the JS interpolation of possibly-absent fields. -/
def fallbackSummary (state : ConversationState) (additionalInfo : Option String) :
    String :=
  let s1 := "**Symptom Summary**\n\n" ++
    "**Chief Complaint:** " ++ jsInterp state.symptom ++ "\n\n"
  let s2 :=
    if strTruthy state.bodyLocation then
      s1 ++ "**Location:** " ++ jsInterp state.bodyLocation ++ "\n\n"
    else s1
  let s3 := s2 ++ "**Duration:** " ++ jsInterp state.duration ++ "\n\n" ++
    "**Additional Details:** " ++ jsInterp state.contextualInfo
  if strTruthy additionalInfo then
    s3 ++ "\n\n**Further Information:** " ++ jsInterp additionalInfo
  else s3

/-- The deterministic `fallbackRecommendation`: the urgency decision
list, with context extended by the additional info (space-joined as in
the source template literal). -/
def fallbackRecommendation (state : ConversationState)
    (additionalInfo : Option String) : AiRecommendation :=
  let symptom := lowerStr (orEmpty state.symptom)
  let duration := lowerStr (orEmpty state.duration)
  let context := lowerStr (orEmpty state.contextualInfo ++ " " ++ orEmpty additionalInfo)
  if strIncludes symptom "chest pain" ||
     strIncludes symptom "difficulty breathing" ||
     strIncludes symptom "severe bleeding" ||
     strIncludes symptom "loss of consciousness" ||
     strIncludes symptom "seizure" ||
     (strIncludes symptom "headache" &&
       (strIncludes context "sudden" || strIncludes context "worst ever")) then
    { recommendation := "Call 999 immediately"
      urgencyLevel := .urgent
      advice := some "This requires immediate emergency attention. Please call 999 or go to A&E right away." }
  else if strIncludes symptom "high fever" ||
          strIncludes symptom "persistent vomiting" ||
          strIncludes symptom "severe pain" ||
          (strIncludes symptom "pain" && strIncludes context "severe") ||
          strIncludes duration "week" ||
          strIncludes duration "month" then
    { recommendation := "Contact your GP or call 111"
      urgencyLevel := .high
      advice := some "You should book a GP appointment within the next 24-48 hours, or call 111 for further guidance if symptoms worsen." }
  else if strIncludes symptom "persistent" ||
          (strIncludes symptom "cough" && strIncludes duration "week") ||
          strIncludes symptom "recurring" then
    { recommendation := "Book a GP appointment"
      urgencyLevel := .medium
      advice := some "Consider booking a GP appointment within the next week to discuss these symptoms further." }
  else
    let selfCareAdvice :=
      if strIncludes symptom "headache" then
        "Stay hydrated, rest in a quiet, dark room, and consider over-the-counter pain relief such as paracetamol or ibuprofen."
      else if strIncludes symptom "cough" then
        "Stay hydrated, rest, use honey and lemon for soothing, and consider over-the-counter cough remedies if needed."
      else if strIncludes symptom "sore throat" then
        "Gargle with warm salt water, stay hydrated, and consider throat lozenges or over-the-counter pain relief."
      else if strIncludes symptom "pain" &&
              (strIncludes symptom "leg" || strIncludes symptom "muscle") then
        "Rest the affected area, apply ice if swollen, and consider over-the-counter anti-inflammatory medication such as ibuprofen."
      else if strIncludes symptom "fatigue" then
        "Ensure adequate sleep, maintain a balanced diet, stay hydrated, and consider gentle exercise."
      else
        "Monitor your symptoms, stay hydrated, and rest. If symptoms persist or worsen, consider contacting your GP."
    { recommendation := "Self-care and monitoring"
      urgencyLevel := .low
      advice := some (selfCareAdvice ++ " Continue to monitor your symptoms and log any changes in this app.") }

/-- Decode one optional state field out of the spread
`{ ...state, ...parsed.newState }`: an absent key keeps the original
value and an explicit null clears it.  An ill-typed payload (possible
under the unchecked cast in the source) is modelled as a failed
generation. -/
def decodeStateField (orig : Option String) : Option Json → Except Unit (Option String)
  | none => .ok orig
  | some .null => .ok none
  | some (.str s) => .ok (some s)
  | some _ => .error ()

/-- The AI-backed `generateNextQuestion`: the gateway outcome is the
explicit argument `ai` (ok carries the raw model text; error stands for
any throw inside `requestAiResponse`).  Any exception along
gateway → extractJson → required-field validation falls back to the
deterministic engine. -/
def generateNextQuestion (ai : Except String String) (state : ConversationState)
    (userMessage : String) : NQResult :=
  let attempt : Except Unit NQResult := do
    let raw ← ai.mapError (fun _ => ())
    let parsed ← (extractJson raw).mapError (fun _ => ())
    let message ← match parsed.getField "message" with
      | some (.str m) => if m = "" then .error () else .ok m
      | _ => .error ()
    let ns ← match parsed.getField "newState" with
      | some (.obj members) => .ok (Json.obj members)
      | _ => .error ()
    let phaseStr ← match ns.getField "conversationPhase" with
      | some (.str p) => if p = "" then .error () else .ok p
      | _ => .error ()
    let ph ← match phaseOfString phaseStr with
      | some ph => .ok ph
      | none => .error ()
    let symptom ← decodeStateField state.symptom (ns.getField "symptom")
    let bodyLocation ← decodeStateField state.bodyLocation (ns.getField "bodyLocation")
    let duration ← decodeStateField state.duration (ns.getField "duration")
    let contextualInfo ← decodeStateField state.contextualInfo (ns.getField "contextualInfo")
    let requiresLocation := match ns.getField "requiresLocation" with
      | some (.bool b) => b
      | _ => state.requiresLocation
    let newState : ConversationState :=
      { symptom := symptom
        bodyLocation := bodyLocation
        duration := duration
        contextualInfo := contextualInfo
        conversationPhase := ph
        requiresLocation := requiresLocation }
    let phaseOut := match parsed.getField "phase" with
      | some (.str p) => if p = "" then phaseToString ph else p
      | _ => phaseToString ph
    .ok { message := message, newState := newState, phase := phaseOut }
  match attempt with
  | .ok r => r
  | .error _ => fallbackNextQuestion state userMessage

/-- The AI-backed `generateSummary` with its deterministic fallback. -/
def generateSummary (ai : Except String String) (state : ConversationState)
    (additionalInfo : Option String) : String :=
  let attempt : Except Unit String := do
    let raw ← ai.mapError (fun _ => ())
    let parsed ← (extractJson raw).mapError (fun _ => ())
    match parsed.getField "summary" with
    | some (.str s) => if s = "" then .error () else .ok s
    | _ => .error ()
  match attempt with
  | .ok s => s
  | .error _ => fallbackSummary state additionalInfo

/-- The AI-backed `generateRecommendation` with the deterministic
urgency classifier as fallback. -/
def generateRecommendation (ai : Except String String) (state : ConversationState)
    (ctx : Option RecCtx) : AiRecommendation :=
  let attempt : Except Unit AiRecommendation := do
    let raw ← ai.mapError (fun _ => ())
    let parsed ← (extractJson raw).mapError (fun _ => ())
    let recText ← match parsed.getField "recommendation" with
      | some (.str r) => if r = "" then .error () else .ok r
      | _ => .error ()
    let urgStr ← match parsed.getField "urgencyLevel" with
      | some (.str u) => if u = "" then .error () else .ok u
      | _ => .error ()
    let urg ← match urgencyOfString urgStr with
      | some u => .ok u
      | none => .error ()
    let advice := match parsed.getField "advice" with
      | some (.str s) => some s
      | _ => none
    .ok { recommendation := recText, urgencyLevel := urg, advice := advice }
  match attempt with
  | .ok r => r
  | .error _ => fallbackRecommendation state (ctx.bind (fun c => c.additionalInfo))

end AiConversationService

namespace GeminiConversationService

/-- `determineLocationRequirement` of the Gemini (severity-enabled)
variant: an empty symptom short-circuits to false; otherwise the AI
classifier result is coerced with `Boolean(...)`, and any failure
(gateway throw or parse failure) defaults to false. -/
def determineLocationRequirement (ai : Except String String) (symptom : String) :
    Bool :=
  if symptom = "" then false
  else
    let attempt : Except Unit Bool := do
      let raw ← ai.mapError (fun _ => ())
      let parsed ← (extractJson raw).mapError (fun _ => ())
      pure (match parsed.getField "requiresLocation" with
        | some v => jsTruthy v
        | none => false)
    match attempt with
    | .ok b => b
    | .error _ => false

end GeminiConversationService

namespace ChatInterface

/-- Severity bands used by the chat UI. -/
inductive SeverityLevel where
  | low
  | medium
  | high
deriving DecidableEq

/-- `descriptorSeverityMap`, in property insertion order. -/
def descriptorSeverityMap : List (String × SeverityLevel) :=
  [("mild", .low), ("light", .low), ("moderate", .medium),
   ("moderate-to-severe", .high), ("severe", .high), ("intense", .high)]

/-- `criticalSymptomKeywords`. -/
def criticalSymptomKeywords : List String :=
  ["chest", "breath", "breathing", "vision", "speech", "numb arm"]

/-- `lowPrioritySymptomKeywords`. -/
def lowPrioritySymptomKeywords : List String :=
  ["headache", "migraine", "tension headache"]

/-- Exact value of a nonnegative decimal literal (integer part and
fraction digits), modelling the result of `parseFloat` on the matched
numeral. -/
structure DecNum where
  intPart : Nat
  frac : List Nat
deriving DecidableEq

/-- `d ≤ k` for a decimal `d` and integer bound `k`. -/
def decLeNat (d : DecNum) (k : Nat) : Bool :=
  d.intPart < k || (d.intPart == k && d.frac.all (fun x => x == 0))

/-- `d > k`. -/
def decGtNat (d : DecNum) (k : Nat) : Bool :=
  !(decLeNat d k)

/-- `d < k` (the fraction part lies in `[0, 1)`). -/
def decLtNat (d : DecNum) (k : Nat) : Bool :=
  d.intPart < k

/-- First match of the regex `(\d+(\.\d+)?)`: the first maximal digit
run, extended by a fraction when a dot followed by a digit ensues. -/
def firstNumberMatch : List Char → Option DecNum
  | [] => none
  | c :: t =>
    if 48 ≤ c.toNat && c.toNat ≤ 57 then
      match takeDigits (c :: t) 0 with
      | (ds, rest, _) =>
        match rest with
        | '.' :: r2 =>
          match takeDigits r2 0 with
          | ([], _, _) => some ⟨digitsToNat ds, []⟩
          | (fd :: fds, _, _) => some ⟨digitsToNat ds, fd :: fds⟩
        | _ => some ⟨digitsToNat ds, []⟩
    else firstNumberMatch t

/-- `parseSeverityScore`: first numeral in the severity text, clamped
to the `[0, 10]` scale; absent or numeral-free text gives null. -/
def parseSeverityScore (severityText : Option String) : Option DecNum :=
  match severityText with
  | none => none
  | some s =>
    if s = "" then none
    else
      match firstNumberMatch s.data with
      | none => none
      | some value =>
        let value := if decGtNat value 10 then ⟨10, []⟩ else value
        let value := if decLtNat value 0 then ⟨0, []⟩ else value
        some value

/-- `deriveSeverityLevel` of ChatInterface.tsx: descriptor lookup, then
numeric banding, then phrase heuristics, then symptom-keyword
escalation and de-escalation. -/
def deriveSeverityLevel (symptom severityText : Option String) : SeverityLevel :=
  let lowerSeverity := match severityText with
    | some s => lowerStr s
    | none => ""
  let descriptorEntry :=
    descriptorSeverityMap.find? (fun kv => strIncludes lowerSeverity kv.1)
  let level : SeverityLevel :=
    match descriptorEntry with
    | some kv => kv.2
    | none =>
      match parseSeverityScore severityText with
      | some score =>
        if decLeNat score 3 then .low
        else if decLeNat score 6 then .medium
        else .high
      | none =>
        if strIncludes lowerSeverity "worse" || strIncludes lowerSeverity "can't cope" then
          .high
        else if strIncludes lowerSeverity "manageable" || strIncludes lowerSeverity "mild" then
          .low
        else .medium
  match symptom with
  | none => level
  | some sym =>
    if sym = "" then level
    else
      let lowerSymptom := lowerStr sym
      if criticalSymptomKeywords.any (fun k => strIncludes lowerSymptom k) then
        if level = .low then .medium else .high
      else if lowPrioritySymptomKeywords.any (fun k => strIncludes lowerSymptom k) &&
              level = .medium then
        .low
      else level

end ChatInterface

/-- States reachable from a fresh conversation by repeated application
of the deterministic engine.  User messages are the texts the chat
input actually submits: trimmed and non-empty (the send handler drops
blank input). -/
inductive Reachable : ConversationState → Prop where
  | startSymptom :
      Reachable { conversationPhase := .symptom, requiresLocation := false }
  | startInitial :
      Reachable { conversationPhase := .initial, requiresLocation := false }
  | step (s : ConversationState) (m : String) :
      Reachable s → m ≠ "" →
      Reachable (ConversationService.generateNextQuestion s m).newState

/-- Inductive invariant of the deterministic phase engine, strengthened
so that it is preserved by every transition: fields are filled exactly
as far as the phase has progressed. -/
def StateInv (s : ConversationState) : Prop :=
  (phaseOrd s.conversationPhase ≤ 2 → s.bodyLocation = none) ∧
  (s.conversationPhase = .location → s.requiresLocation = true) ∧
  (s.bodyLocation.isSome = true → s.requiresLocation = true) ∧
  (2 ≤ phaseOrd s.conversationPhase → strTruthy s.symptom = true) ∧
  (3 ≤ phaseOrd s.conversationPhase → s.requiresLocation = true → strTruthy s.bodyLocation = true) ∧
  (4 ≤ phaseOrd s.conversationPhase → strTruthy s.duration = true) ∧
  (5 ≤ phaseOrd s.conversationPhase → strTruthy s.contextualInfo = true)

/-- A concrete four-turn conversation ending in the summary phase, used
to instantiate the reachability invariant. -/
def demoFinalState : ConversationState :=
  (ConversationService.generateNextQuestion
    (ConversationService.generateNextQuestion
      (ConversationService.generateNextQuestion
        (ConversationService.generateNextQuestion
          { conversationPhase := .symptom, requiresLocation := false }
          "stomach ache").newState
        "lower right belly").newState
      "two days").newState
    "worse after meals").newState

/-- Claim C1: the urgency classifier is an ordered decision list whose
urgent tier is checked first: whenever the symptom text contains one of
the emergency keywords (or mentions headache while the context mentions
sudden or worst ever), case-insensitively, the deterministic
recommendation is urgent, regardless of any lower-tier keyword matches
in the same inputs. -/
theorem urgent_tier_always_wins (s : ConversationState)
    (h : strIncludes (lowerStr (orEmpty s.symptom)) "chest pain" = true ∨
         strIncludes (lowerStr (orEmpty s.symptom)) "difficulty breathing" = true ∨
         strIncludes (lowerStr (orEmpty s.symptom)) "severe bleeding" = true ∨
         strIncludes (lowerStr (orEmpty s.symptom)) "loss of consciousness" = true ∨
         strIncludes (lowerStr (orEmpty s.symptom)) "seizure" = true ∨
         (strIncludes (lowerStr (orEmpty s.symptom)) "headache" = true ∧
           (strIncludes (lowerStr (orEmpty s.contextualInfo)) "sudden" = true ∨
            strIncludes (lowerStr (orEmpty s.contextualInfo)) "worst ever" = true))) :
    (ConversationService.generateRecommendation s).urgencyLevel = .urgent := by
  have hc : (strIncludes (lowerStr (orEmpty s.symptom)) "chest pain" ||
      strIncludes (lowerStr (orEmpty s.symptom)) "difficulty breathing" ||
      strIncludes (lowerStr (orEmpty s.symptom)) "severe bleeding" ||
      strIncludes (lowerStr (orEmpty s.symptom)) "loss of consciousness" ||
      strIncludes (lowerStr (orEmpty s.symptom)) "seizure" ||
      (strIncludes (lowerStr (orEmpty s.symptom)) "headache" &&
        (strIncludes (lowerStr (orEmpty s.contextualInfo)) "sudden" ||
         strIncludes (lowerStr (orEmpty s.contextualInfo)) "worst ever"))) = true := by
    rcases h with h | h | h | h | h | ⟨h1, h2 | h2⟩ <;> simp [*]
  simp [ConversationService.generateRecommendation, hc]

/-- Witness for C1: a symptom matching both the urgent keywords and
lower-tier conditions is still classified urgent. -/
theorem urgent_tier_always_wins_witness :
    strIncludes (lowerStr (orEmpty (some "Chest pain and persistent cough"))) "chest pain" = true ∧
    (ConversationService.generateRecommendation
      { symptom := some "Chest pain and persistent cough"
        duration := some "two weeks"
        conversationPhase := .summary
        requiresLocation := false }).urgencyLevel = .urgent :=
  ⟨by decide, urgent_tier_always_wins _ (Or.inl (by decide))⟩

/-- Claim C3: each user message is stored into the field owned by the
phase that asked the question, the phase advances along the linear
machine (branching at symptom on the location requirement), phases
never move backwards, and the returned phase string names the new
state's phase. -/
theorem phase_engine_transition (s : ConversationState) (m : String) :
    ((ConversationService.generateNextQuestion s m).newState.symptom =
      if s.conversationPhase = .symptom then some m else s.symptom) ∧
    ((ConversationService.generateNextQuestion s m).newState.bodyLocation =
      if s.conversationPhase = .location then some m else s.bodyLocation) ∧
    ((ConversationService.generateNextQuestion s m).newState.duration =
      if s.conversationPhase = .duration then some m else s.duration) ∧
    ((ConversationService.generateNextQuestion s m).newState.contextualInfo =
      if s.conversationPhase = .context then some m else s.contextualInfo) ∧
    ((ConversationService.generateNextQuestion s m).newState.conversationPhase =
      match s.conversationPhase with
      | .initial => .symptom
      | .symptom => if ConversationService.needsBodyLocation m then .location else .duration
      | .location => .duration
      | .duration => .context
      | .context => .summary
      | .summary => .summary) ∧
    phaseOrd s.conversationPhase ≤
      phaseOrd (ConversationService.generateNextQuestion s m).newState.conversationPhase ∧
    (ConversationService.generateNextQuestion s m).phase =
      phaseToString (ConversationService.generateNextQuestion s m).newState.conversationPhase := by
  cases hp : s.conversationPhase
  case symptom =>
    cases hm : ConversationService.needsBodyLocation m <;>
      simp [ConversationService.generateNextQuestion, hp, hm, phaseOrd, phaseToString]
  all_goals
    simp [ConversationService.generateNextQuestion, hp, phaseOrd, phaseToString]

/-- Claim C4: symptom texts containing a location keyword force the
location phase; texts containing none skip it. -/
theorem location_gate (t : String) :
    ((∃ k ∈ ConversationService.symptomsThatNeedLocation, strIncludes (lowerStr t) k = true) →
      ConversationService.needsBodyLocation t = true ∧
      ∀ s : ConversationState, s.conversationPhase = .symptom →
        (ConversationService.generateNextQuestion s t).newState.requiresLocation = true ∧
        (ConversationService.generateNextQuestion s t).newState.conversationPhase = .location) ∧
    ((∀ k ∈ ConversationService.symptomsThatNeedLocation, strIncludes (lowerStr t) k = false) →
      ConversationService.needsBodyLocation t = false ∧
      ∀ s : ConversationState, s.conversationPhase = .symptom →
        (ConversationService.generateNextQuestion s t).newState.requiresLocation = false ∧
        (ConversationService.generateNextQuestion s t).newState.conversationPhase = .duration) := by
  constructor
  · rintro ⟨k, hk, hinc⟩
    have hn : ConversationService.needsBodyLocation t = true := by
      unfold ConversationService.needsBodyLocation
      exact List.any_eq_true.mpr ⟨k, hk, hinc⟩
    refine ⟨hn, fun s hs => ?_⟩
    simp [ConversationService.generateNextQuestion, hs, hn]
  · intro hall
    have hn : ConversationService.needsBodyLocation t = false := by
      unfold ConversationService.needsBodyLocation
      refine List.any_eq_false.mpr ?_
      intro k hk
      simp [hall k hk]
    refine ⟨hn, fun s hs => ?_⟩
    simp [ConversationService.generateNextQuestion, hs, hn]

/-- Witness for C4: "ache" routes through the location phase, while
"fatigue" skips straight to duration. -/
theorem location_gate_witness :
    ConversationService.needsBodyLocation "ache" = true ∧
    (ConversationService.generateNextQuestion
        { conversationPhase := .symptom, requiresLocation := false }
        "ache").newState.conversationPhase = .location ∧
    ConversationService.needsBodyLocation "fatigue" = false ∧
    (ConversationService.generateNextQuestion
        { conversationPhase := .symptom, requiresLocation := false }
        "fatigue").newState.conversationPhase = .duration :=
  ⟨((location_gate "ache").1 ⟨"ache", by decide, by decide⟩).1,
   (((location_gate "ache").1 ⟨"ache", by decide, by decide⟩).2 _ rfl).2,
   ((location_gate "fatigue").2 (by decide)).1,
   (((location_gate "fatigue").2 (by decide)).2 _ rfl).2⟩

/-- Claim C7: the headache scenario — the context-phase message about a
sudden, worst-ever onset is stored as contextual info, the phase moves
to summary, and the classifier rates the resulting state urgent. -/
theorem headache_sudden_scenario :
    (ConversationService.generateNextQuestion
        { symptom := some "bad headache", conversationPhase := .context,
          requiresLocation := false }
        "it started suddenly and is the worst I've ever had").newState.contextualInfo =
      some "it started suddenly and is the worst I've ever had" ∧
    (ConversationService.generateNextQuestion
        { symptom := some "bad headache", conversationPhase := .context,
          requiresLocation := false }
        "it started suddenly and is the worst I've ever had").newState.conversationPhase =
      .summary ∧
    (ConversationService.generateRecommendation
      (ConversationService.generateNextQuestion
          { symptom := some "bad headache", conversationPhase := .context,
            requiresLocation := false }
          "it started suddenly and is the worst I've ever had").newState).urgencyLevel =
      .urgent := by
  refine ⟨rfl, rfl, by decide⟩

/-- Claim C10: the deterministic recommendation is total — absent
fields behave as empty strings, the urgency level is always one of the
four tiers, and the all-absent state falls through to the generic
self-care branch with the monitoring reminder appended. -/
theorem recommendation_total (s : ConversationState) :
    ((ConversationService.generateRecommendation s).urgencyLevel = .low ∨
     (ConversationService.generateRecommendation s).urgencyLevel = .medium ∨
     (ConversationService.generateRecommendation s).urgencyLevel = .high ∨
     (ConversationService.generateRecommendation s).urgencyLevel = .urgent) ∧
    (ConversationService.generateRecommendation s =
      ConversationService.generateRecommendation
        { s with symptom := some (orEmpty s.symptom)
                 duration := some (orEmpty s.duration)
                 contextualInfo := some (orEmpty s.contextualInfo) }) ∧
    (s.symptom = none → s.duration = none → s.contextualInfo = none →
      ConversationService.generateRecommendation s =
        { recommendation := "Self-care and monitoring"
          urgencyLevel := .low
          advice := "Monitor your symptoms, stay hydrated, and rest. If symptoms persist or worsen, consider contacting your GP. Continue to monitor your symptoms and log any changes in this app." }) := by
  refine ⟨?_, rfl, ?_⟩
  · cases h : (ConversationService.generateRecommendation s).urgencyLevel <;> simp
  · intro h1 h2 h3
    obtain ⟨sy, bl, du, ci, ph, rl⟩ := s
    dsimp only at h1 h2 h3
    subst h1; subst h2; subst h3
    rfl

/-- Witness for C10: the all-absent state evaluates to the generic
low-urgency self-care recommendation. -/
theorem recommendation_total_witness :
    ConversationService.generateRecommendation
        { conversationPhase := .summary, requiresLocation := false } =
      { recommendation := "Self-care and monitoring"
        urgencyLevel := .low
        advice := "Monitor your symptoms, stay hydrated, and rest. If symptoms persist or worsen, consider contacting your GP. Continue to monitor your symptoms and log any changes in this app." } :=
  (recommendation_total _).2.2 rfl rfl rfl

/-- The fallback of the AI next-question generator coincides with the
deterministic phase engine of conversationService.ts. -/
theorem fallback_matches_det_engine (s : ConversationState) (m : String) :
    AiConversationService.fallbackNextQuestion s m =
      ConversationService.generateNextQuestion s m := by
  cases hp : s.conversationPhase <;>
    simp [AiConversationService.fallbackNextQuestion,
      ConversationService.generateNextQuestion, hp]

/-- Claim C2: whatever the reason the AI gateway throws, every content
generator still returns its well-formed deterministic fallback result,
and the next-question generator performs exactly the phase transition
of the deterministic engine. -/
theorem generators_fall_back_on_gateway_error (e : String) (s : ConversationState)
    (m : String) (addl : Option String) (ctx : Option RecCtx) :
    AiConversationService.generateNextQuestion (.error e) s m =
      ConversationService.generateNextQuestion s m ∧
    AiConversationService.generateSummary (.error e) s addl =
      AiConversationService.fallbackSummary s addl ∧
    AiConversationService.generateRecommendation (.error e) s ctx =
      AiConversationService.fallbackRecommendation s (ctx.bind (fun c => c.additionalInfo)) ∧
    (AiConversationService.generateNextQuestion (.error e) s m).newState.conversationPhase =
      (ConversationService.generateNextQuestion s m).newState.conversationPhase := by
  have hf : AiConversationService.generateNextQuestion (.error e) s m =
      AiConversationService.fallbackNextQuestion s m := rfl
  have hd := fallback_matches_det_engine s m
  exact ⟨hf.trans hd, rfl, rfl, by rw [hf, hd]⟩

/-- Claim C6 counterexample: on input "xx‹brace›bad‹brace›" the strict
parse fails at position 0, the lenient brace-substring parse fails at
position 1, and extractJson propagates the lenient error, not the
original strict one as claimed. -/
theorem extractJson_propagates_lenient_error :
    parseJson (jsTrim "xx\x7bbad\x7d") = .error ⟨0⟩ ∧
    extractJson "xx\x7bbad\x7d" = .error ⟨1⟩ ∧
    (⟨1⟩ : ParseErr) ≠ ⟨0⟩ :=
  ⟨rfl, rfl, by decide⟩

/-- Claim C6 (amended): extractJson strict-parses the trimmed text
first; on failure it retries on the brace-delimited candidate and
returns that parse's value on success; when no candidate exists the
original error propagates, and when the candidate also fails to parse
the lenient attempt's error propagates.  Concretely, a clean JSON
object and the same object wrapped in code-fence prose parse to the
same value. -/
theorem extractJson_behaviour (raw : String) :
    (∀ v, parseJson (jsTrim raw) = .ok v → extractJson raw = .ok v) ∧
    (∀ e sub v, parseJson (jsTrim raw) = .error e →
      jsonCandidate (jsTrim raw) = some sub → parseJson sub = .ok v →
      extractJson raw = .ok v) ∧
    (∀ e, parseJson (jsTrim raw) = .error e → jsonCandidate (jsTrim raw) = none →
      extractJson raw = .error e) ∧
    (∀ e sub e2, parseJson (jsTrim raw) = .error e →
      jsonCandidate (jsTrim raw) = some sub → parseJson sub = .error e2 →
      extractJson raw = .error e2) ∧
    extractJson "\x7b\"a\": \"b\"\x7d" = .ok (.obj [("a", .str "b")]) ∧
    extractJson "Sure! Here you go:\n```json\n\x7b\"a\": \"b\"\x7d\n```" =
      .ok (.obj [("a", .str "b")]) := by
  refine ⟨?_, ?_, ?_, ?_, rfl, rfl⟩
  · intro v h
    simp [extractJson, h]
  · intro e sub v h1 h2 h3
    simp [extractJson, h1, h2, h3]
  · intro e h1 h2
    simp [extractJson, h1, h2]
  · intro e sub e2 h1 h2 h3
    simp [extractJson, h1, h2, h3]

/-- Witness for C6 (amended): a clean object parses strictly, and on
the doubly-failing input the lenient error is the one returned. -/
theorem extractJson_behaviour_witness :
    extractJson " \x7b\"ok\": true\x7d" = .ok (.obj [("ok", .bool true)]) ∧
    extractJson "xx\x7bbad\x7d" = .error ⟨1⟩ :=
  ⟨(extractJson_behaviour " \x7b\"ok\": true\x7d").1 _ rfl,
   (extractJson_behaviour "xx\x7bbad\x7d").2.2.2.1 ⟨0⟩ "\x7bbad\x7d" ⟨1⟩ rfl rfl rfl⟩

/-- Claim C8 counterexample: when the AI classifier call fails, the
AI-variant location decision on "ache" is false while the keyword test
is true — the deterministic path and the AI path disagree. -/
theorem location_paths_disagree :
    GeminiConversationService.determineLocationRequirement (.error "network error") "ache" = false ∧
    ConversationService.needsBodyLocation "ache" = true ∧
    GeminiConversationService.determineLocationRequirement (.error "network error") "ache" ≠
      ConversationService.needsBodyLocation "ache" := by
  refine ⟨rfl, by decide, ?_⟩
  intro h
  have hfq : GeminiConversationService.determineLocationRequirement
      (.error "network error") "ache" = false := rfl
  have hneeds : ConversationService.needsBodyLocation "ache" = true := by decide
  exact Bool.noConfusion (hfq.symm.trans (h.trans hneeds))

/-- Claim C8 (amended): when the AI classifier call fails its
deterministic default makes determineLocationRequirement return false
for every symptom text, so it agrees with needsBodyLocation exactly on
the symptom texts that contain no location keyword. -/
theorem location_requirement_default (e : String) (symptom : String) :
    GeminiConversationService.determineLocationRequirement (.error e) symptom = false ∧
    (ConversationService.needsBodyLocation symptom = false →
      GeminiConversationService.determineLocationRequirement (.error e) symptom =
        ConversationService.needsBodyLocation symptom) := by
  have h0 : GeminiConversationService.determineLocationRequirement (.error e) symptom = false := by
    unfold GeminiConversationService.determineLocationRequirement
    split
    · rfl
    · rfl
  exact ⟨h0, fun hn => h0.trans hn.symm⟩

/-- Witness for C8 (amended): on "fatigue" (no location keyword) the
failing AI path and the keyword test agree on false. -/
theorem location_requirement_default_witness :
    GeminiConversationService.determineLocationRequirement (.error "timeout") "fatigue" = false ∧
    ConversationService.needsBodyLocation "fatigue" = false ∧
    GeminiConversationService.determineLocationRequirement (.error "timeout") "fatigue" =
      ConversationService.needsBodyLocation "fatigue" :=
  ⟨(location_requirement_default "timeout" "fatigue").1, by decide,
   (location_requirement_default "timeout" "fatigue").2 (by decide)⟩

/-- Claim C9: evaluation of deriveSeverityLevel at the divergent input —
severity text "moderate-to-severe" is banded medium, because the find
over the descriptor map hits the "moderate" entry first and the
"moderate-to-severe" → high entry can never be selected; the claim's
"8/10, throbbing" chest-tightness scenario does evaluate to high. -/
theorem deriveSeverityLevel_eval :
    ChatInterface.deriveSeverityLevel none (some "moderate-to-severe") = .medium ∧
    ChatInterface.deriveSeverityLevel (some "fatigue") (some "moderate-to-severe") = .medium ∧
    ChatInterface.deriveSeverityLevel (some "chest tightness") (some "8/10, throbbing") = .high :=
  ⟨by decide, by decide, by decide⟩

/-- One engine step preserves the strengthened phase invariant, for the
non-empty messages the chat input submits. -/
theorem stateInv_step (s : ConversationState) (m : String) (hm : m ≠ "")
    (h : StateInv s) :
    StateInv (ConversationService.generateNextQuestion s m).newState := by
  obtain ⟨h1, h2, h3, h4, h5, h6, h7⟩ := h
  cases hp : s.conversationPhase
  case initial =>
    have hbl : s.bodyLocation = none := h1 (by simp [hp, phaseOrd])
    simp [StateInv, ConversationService.generateNextQuestion, hp, phaseOrd, hbl]
  case symptom =>
    have hbl : s.bodyLocation = none := h1 (by simp [hp, phaseOrd])
    cases hloc : ConversationService.needsBodyLocation m <;>
      simp [StateInv, ConversationService.generateNextQuestion, hp, hloc, phaseOrd, hbl,
        strTruthy, orEmpty, hm]
  case location =>
    have hreq : s.requiresLocation = true := h2 hp
    have hsym : ¬s.symptom.getD "" = "" := by
      simpa [strTruthy, orEmpty] using h4 (by simp [hp, phaseOrd])
    simp [StateInv, ConversationService.generateNextQuestion, hp, phaseOrd, hreq,
      strTruthy, orEmpty, hm]
    exact hsym
  case duration =>
    have hsym : ¬s.symptom.getD "" = "" := by
      simpa [strTruthy, orEmpty] using h4 (by simp [hp, phaseOrd])
    have hbl5 : s.requiresLocation = true → ¬s.bodyLocation.getD "" = "" := fun hr => by
      simpa [strTruthy, orEmpty] using h5 (by simp [hp, phaseOrd]) hr
    simp [StateInv, ConversationService.generateNextQuestion, hp, phaseOrd,
      strTruthy, orEmpty, hm]
    exact ⟨h3, hsym, hbl5⟩
  case context =>
    have hsym : ¬s.symptom.getD "" = "" := by
      simpa [strTruthy, orEmpty] using h4 (by simp [hp, phaseOrd])
    have hbl5 : s.requiresLocation = true → ¬s.bodyLocation.getD "" = "" := fun hr => by
      simpa [strTruthy, orEmpty] using h5 (by simp [hp, phaseOrd]) hr
    have hdur : ¬s.duration.getD "" = "" := by
      simpa [strTruthy, orEmpty] using h6 (by simp [hp, phaseOrd])
    simp [StateInv, ConversationService.generateNextQuestion, hp, phaseOrd,
      strTruthy, orEmpty, hm]
    exact ⟨h3, hsym, hbl5, hdur⟩
  case summary =>
    have hsym : ¬s.symptom.getD "" = "" := by
      simpa [strTruthy, orEmpty] using h4 (by simp [hp, phaseOrd])
    have hbl5 : s.requiresLocation = true → ¬s.bodyLocation.getD "" = "" := fun hr => by
      simpa [strTruthy, orEmpty] using h5 (by simp [hp, phaseOrd]) hr
    have hdur : ¬s.duration.getD "" = "" := by
      simpa [strTruthy, orEmpty] using h6 (by simp [hp, phaseOrd])
    have hctx : ¬s.contextualInfo.getD "" = "" := by
      simpa [strTruthy, orEmpty] using h7 (by simp [hp, phaseOrd])
    simp [StateInv, ConversationService.generateNextQuestion, hp, phaseOrd,
      strTruthy, orEmpty, hm]
    exact ⟨h3, hsym, hbl5, hdur, hctx⟩

/-- Claim C5: in every state reachable from a fresh conversation, the
body location is set only when the location requirement held when it
was derived, and reaching the summary phase implies all fields the
variant requires are non-empty. -/
theorem reachable_invariant (s : ConversationState) (h : Reachable s) :
    (s.bodyLocation.isSome = true → s.requiresLocation = true) ∧
    (s.conversationPhase = .summary →
      strTruthy s.symptom = true ∧
      (s.requiresLocation = true → strTruthy s.bodyLocation = true) ∧
      strTruthy s.duration = true ∧
      strTruthy s.contextualInfo = true) := by
  have hInv : StateInv s := by
    induction h with
    | startSymptom => simp [StateInv, phaseOrd]
    | startInitial => simp [StateInv, phaseOrd]
    | step s m hr hm ih => exact stateInv_step s m hm ih
  obtain ⟨h1, h2, h3, h4, h5, h6, h7⟩ := hInv
  refine ⟨h3, fun hs => ⟨h4 (by simp [hs, phaseOrd]), h5 (by simp [hs, phaseOrd]),
    h6 (by simp [hs, phaseOrd]), h7 (by simp [hs, phaseOrd])⟩⟩

/-- Witness for C5: a concrete four-turn conversation reaching the
summary phase satisfies the invariant. -/
theorem reachable_invariant_witness :
    (demoFinalState.bodyLocation.isSome = true → demoFinalState.requiresLocation = true) ∧
    (demoFinalState.conversationPhase = .summary →
      strTruthy demoFinalState.symptom = true ∧
      (demoFinalState.requiresLocation = true → strTruthy demoFinalState.bodyLocation = true) ∧
      strTruthy demoFinalState.duration = true ∧
      strTruthy demoFinalState.contextualInfo = true) :=
  reachable_invariant demoFinalState
    (Reachable.step _ _ (Reachable.step _ _ (Reachable.step _ _ (Reachable.step _ _
      Reachable.startSymptom (by decide)) (by decide)) (by decide)) (by decide))
